import Mathlib

/- Shallow embedding of the session / queue / team logic of src/bot.js
   (class OverwatchScheduleBot).  Rows of the sqlite tables become Lean
   structures; every handler that writes to the sessions, session_queue or
   session_participants tables becomes a pure function from a database
   state to a database state paired with the reply string sent to the
   user.  SQL statements are translated literally: UPDATE ... WHERE maps
   the update over every matching row, DELETE ... WHERE filters matching
   rows out, and the sqlite changes() counter is the number of matching
   rows. -/

/-- Row of the user_accounts table, restricted to the columns the queue
and rank logic reads (id and the per-role rank columns). -/
structure Account where
  id : Nat
  discordId : String
  tankRank : String
  tankDivision : Int
  dpsRank : String
  dpsDivision : Int
  supportRank : String
  supportDivision : Int
  deriving Repr, DecidableEq

/-- Row of the session_queue table (bot.js initDatabase, lines 109-121).
The dead queue_position column is omitted; joinedAt is the join timestamp
that defines the ORDER BY sq.joined_at ordering. -/
structure QueueEntry where
  sessionId : Nat
  userId : String
  accountId : Nat
  preferredRoles : List String
  isStreaming : Bool
  joinedAt : Nat
  deriving Repr, DecidableEq

/-- Row of the session_participants table (bot.js initDatabase, lines
124-136). -/
structure Participant where
  sessionId : Nat
  userId : String
  accountId : Nat
  role : String
  isStreaming : Bool
  selectedBy : String
  deriving Repr, DecidableEq

/-- Row of the sessions table (bot.js initDatabase, lines 93-106).  The
status column is TEXT with default value open; the code writes only the
value cancelled to it afterwards. -/
structure Session where
  id : Nat
  creatorId : String
  guildId : String
  channelId : String
  gameMode : String
  status : String
  messageId : String
  deriving Repr, DecidableEq

/-- The mutable database tables the queue / team state machine touches. -/
structure DbState where
  sessions : List Session
  accounts : List Account
  queue : List QueueEntry
  participants : List Participant
  deriving Repr, DecidableEq

/-- Tier order used by getRankValue (bot.js line 1668). -/
def rankOrder : List String :=
  ["Bronze", "Silver", "Gold", "Platinum", "Diamond", "Master", "Grandmaster", "Champion"]

/-- Tier name paired with the division list given for it in this.ranks
(bot.js lines 21-30). -/
def ranksDivisions : List (String × List Int) :=
  [("Bronze", [5, 4, 3, 2, 1]),
   ("Silver", [5, 4, 3, 2, 1]),
   ("Gold", [5, 4, 3, 2, 1]),
   ("Platinum", [5, 4, 3, 2, 1]),
   ("Diamond", [5, 4, 3, 2, 1]),
   ("Master", [5, 4, 3, 2, 1]),
   ("Grandmaster", [5, 4, 3, 2, 1]),
   ("Champion", [1])]

/-- Role capacity tables of this.gameModes (bot.js lines 33-46). -/
def gameModes : List (String × List (String × Nat)) :=
  [("5v5", [("Tank", 1), ("DPS", 2), ("Support", 2)]),
   ("6v6", [("Any", 6)]),
   ("Stadium", [("Any", 6)])]

/-- Role and slot-count list of a game mode. -/
def rolesOf (mode : String) : List (String × Nat) :=
  (((gameModes.find? (fun m => m.1 == mode)).map (fun m => m.2)).getD [])

/-- Embedding of getRankValue (bot.js lines 1665-1673): a falsy rank
(empty string) or falsy division (zero) gives 0, an unknown rank name
gives 0 (indexOf returning -1), otherwise rankIndex * 10 + (6 - division). -/
def getRankValue (rank : String) (division : Int) : Int :=
  if rank = "" ∨ division = 0 then 0
  else if rankOrder.contains rank then
    (rankOrder.indexOf rank : Int) * 10 + (6 - division)
  else 0

/-- Scalar rank the management view has for a queue row and a role
(the rank logic of getPlayerRankDescription, bot.js lines 1675-1698): the
rank of the linked account for that role, or the highest of the three
role ranks when the role is the catch-all. -/
def rankForRole (db : DbState) (q : QueueEntry) (role : String) : Int :=
  match db.accounts.find? (fun a => a.id == q.accountId) with
  | none => 0
  | some a =>
    if role == "Tank" then getRankValue a.tankRank a.tankDivision
    else if role == "DPS" then getRankValue a.dpsRank a.dpsDivision
    else if role == "Support" then getRankValue a.supportRank a.supportDivision
    else
      max (getRankValue a.tankRank a.tankDivision)
        (max (getRankValue a.dpsRank a.dpsDivision)
          (getRankValue a.supportRank a.supportDivision))

/-- Embedding of the JavaScript expression [...new Set(xs)] used by
joinWithAccount (bot.js line 980): keep the first occurrence of every
element, in order. -/
def jsSetOfList : List String → List String
  | [] => []
  | a :: as => a :: jsSetOfList (as.filter (fun b => b ≠ a))
termination_by l => l.length
decreasing_by
  simp only [List.length_cons]
  exact Nat.lt_succ_of_le (List.length_filter_le _ _)

/-- Embedding of the session INSERT performed by the select-day branch of
handleSelectMenu (bot.js lines 1179-1234): a new row whose status and
message_id columns take their schema defaults open and the empty string. -/
def createSession (db : DbState) (newId : Nat)
    (creatorId guildId channelId gameMode : String) : DbState :=
  { db with sessions := db.sessions ++
      [{ id := newId, creatorId := creatorId, guildId := guildId,
         channelId := channelId, gameMode := gameMode,
         status := "open", messageId := "" }] }

/-- Embedding of UPDATE sessions SET message_id = ? WHERE id = ?
(bot.js lines 1225-1228). -/
def setMessageId (db : DbState) (sessionId : Nat) (mid : String) : DbState :=
  { db with sessions := db.sessions.map (fun s =>
      if s.id == sessionId then { s with messageId := mid } else s) }

/-- Embedding of joinWithAccount (bot.js lines 971-1043): if the user
already has a queue row for this session, the new roles are unioned into
its preferred_roles (via [...new Set(...)]) and its account_id is set to
the supplied account; otherwise a new queue row is inserted.  No check of
the session status is performed anywhere in the function. -/
def joinWithAccount (db : DbState) (sessionId : Nat) (userId : String)
    (accountId : Nat) (roles : List String) (now : Nat) : DbState × String :=
  match db.queue.find? (fun q => q.sessionId == sessionId && q.userId == userId) with
  | some existing =>
    let newRoles := jsSetOfList (existing.preferredRoles ++ roles)
    ({ db with queue := db.queue.map (fun q =>
        if q.sessionId == sessionId && q.userId == userId then
          { q with preferredRoles := newRoles, accountId := accountId }
        else q) },
     "Updated queue entry")
  | none =>
    ({ db with queue := db.queue ++
        [{ sessionId := sessionId, userId := userId, accountId := accountId,
           preferredRoles := roles, isStreaming := false, joinedAt := now }] },
     "Successfully joined queue")

/-- Embedding of handleLeaveQueue (bot.js lines 829-859): DELETE FROM
session_queue WHERE session_id = ? AND user_id = ?; when the deletion
touched zero rows (this.changes === 0) the reply is the not-in-queue
error, otherwise a success message. -/
def handleLeaveQueue (db : DbState) (sessionId : Nat) (userId : String) :
    DbState × String :=
  let changes :=
    (db.queue.filter (fun q => q.sessionId == sessionId && q.userId == userId)).length
  let db2 := { db with queue := db.queue.filter (fun q =>
      !(q.sessionId == sessionId && q.userId == userId)) }
  if changes = 0 then
    (db2, "You were not in the queue for this session!")
  else
    (db2, "Left the queue for session.")

/-- Embedding of handleLeaveQueueButton (bot.js lines 1467-1487): the same
DELETE, but the reply is a success message whether or not a row existed. -/
def handleLeaveQueueButton (db : DbState) (sessionId : Nat) (userId : String) :
    DbState × String :=
  ({ db with queue := db.queue.filter (fun q =>
      !(q.sessionId == sessionId && q.userId == userId)) },
   "Left the queue for session!")

/-- Embedding of handleCancelSession (bot.js lines 800-827): UPDATE
sessions SET status = cancelled WHERE id = ? AND creator_id = ?; a zero
changes() count means the session does not exist or the caller is not the
creator. -/
def handleCancelSession (db : DbState) (sessionId : Nat) (userId : String) :
    DbState × String :=
  let changes :=
    (db.sessions.filter (fun s => s.id == sessionId && s.creatorId == userId)).length
  let db2 := { db with sessions := db.sessions.map (fun s =>
      if s.id == sessionId && s.creatorId == userId then
        { s with status := "cancelled" }
      else s) }
  if changes = 0 then
    (db2, "Session not found or you are not the creator!")
  else
    (db2, "Session has been cancelled.")

/-- Embedding of handleToggleStream (bot.js lines 1045-1108): a request
whose target user differs from the requesting user is refused before any
read or write; otherwise the is_streaming flag is flipped on the queue row
if one exists, else on the participant row if one exists, else the
not-part-of-session error is returned. -/
def handleToggleStream (db : DbState) (sessionId : Nat)
    (targetUserId requesterId : String) : DbState × String :=
  if targetUserId ≠ requesterId then
    (db, "You can only toggle your own streaming status!")
  else
    match db.queue.find? (fun q => q.sessionId == sessionId && q.userId == targetUserId) with
    | some entry =>
      ({ db with queue := db.queue.map (fun q =>
          if q.sessionId == sessionId && q.userId == targetUserId then
            { q with isStreaming := !entry.isStreaming }
          else q) },
       if !entry.isStreaming then "Now streaming!" else "Stopped streaming")
    | none =>
      match db.participants.find? (fun p => p.sessionId == sessionId && p.userId == targetUserId) with
      | some part =>
        ({ db with participants := db.participants.map (fun p =>
            if p.sessionId == sessionId && p.userId == targetUserId then
              { p with isStreaming := !part.isStreaming }
            else p) },
         if !part.isStreaming then "Now streaming!" else "Stopped streaming")
      | none => (db, "You are not part of this session!")

/-- Embedding of updateSessionMessage (bot.js lines 1441-1464).  The
outcome of the external channel fetch and message edit is passed in as
editResult; the early return covers a missing session or empty
message_id, and the try/catch turns any edit failure into a logged no-op,
so the database is returned unchanged and no error ever propagates. -/
def updateSessionMessage (db : DbState) (sessionId : Nat)
    (editResult : Except String Unit) : DbState × Except String Unit :=
  match db.sessions.find? (fun s => s.id == sessionId) with
  | none => (db, Except.ok ())
  | some s =>
    if s.messageId = "" then (db, Except.ok ())
    else
      match editResult with
      | Except.ok _ => (db, Except.ok ())
      | Except.error _ => (db, Except.ok ())

/-- Eligibility filter of manageSession (bot.js lines 683-686): the row
qualifies for a role when its preferred roles contain the role, contain
the catch-all Any, or the role itself is Any. -/
def eligibleFor (role : String) (q : QueueEntry) : Bool :=
  q.preferredRoles.contains role || q.preferredRoles.contains "Any" || role == "Any"

/-- Comparison on join timestamps, the ORDER BY sq.joined_at key of the
manageSession queue query (bot.js line 658). -/
def joinLE (a b : QueueEntry) : Prop := a.joinedAt ≤ b.joinedAt

instance : DecidableRel joinLE := fun a b => Nat.decLe a.joinedAt b.joinedAt

instance : IsTotal QueueEntry joinLE := ⟨fun a b => Nat.le_total a.joinedAt b.joinedAt⟩

instance : IsTrans QueueEntry joinLE := ⟨fun _ _ _ => Nat.le_trans⟩

/-- Embedding of ORDER BY sq.joined_at on the stored queue rows: a stable
sort by join timestamp (rows with equal timestamps keep their stored
order). -/
def queueByJoinTime (queue : List QueueEntry) : List QueueEntry :=
  List.insertionSort joinLE queue

/-- Uncapped eligible list of the manageSession flow (bot.js lines
653-699): the queue rows of the session surviving the INNER JOIN with the
users table (JOIN users u ON sq.user_id = u.discord_id, bot.js line 656,
drops every row whose user has no users record), ordered by joined_at
(stable), then filtered by the role-eligibility condition.  The users
argument is the discord_id column of the users table. -/
def eligibleAll (users : List String) (queue : List QueueEntry)
    (sessionId : Nat) (role : String) : List QueueEntry :=
  (queueByJoinTime (queue.filter (fun q =>
      q.sessionId == sessionId && users.contains q.userId))).filter
    (eligibleFor role)

/-- Eligible-candidate list manageSession actually shows the creator for
a role: the uncapped list cut to its first 25 rows by
eligible.slice(0, 25) when the select-menu options are built (bot.js line
692). -/
def listEligible (users : List String) (queue : List QueueEntry)
    (sessionId : Nat) (role : String) : List QueueEntry :=
  (eligibleAll users queue sessionId role).take 25

/-- Modelled from the spec words of ListEligible (spec.md section 4.1):
join timestamp ascending with ties broken by rank value descending. -/
def specLE (db : DbState) (role : String) (a b : QueueEntry) : Prop :=
  a.joinedAt < b.joinedAt ∨
    (a.joinedAt = b.joinedAt ∧ rankForRole db b role ≤ rankForRole db a role)

instance (db : DbState) (role : String) : DecidableRel (specLE db role) :=
  fun _ _ => by unfold specLE; infer_instance

/-- Modelled from the spec words of ListEligible (spec.md section 4.1):
the eligible rows ordered by join timestamp ascending, ties broken by
RankComparator descending. -/
def listEligibleSpec (db : DbState) (queue : List QueueEntry) (role : String) :
    List QueueEntry :=
  (List.insertionSort (specLE db role) queue).filter (eligibleFor role)

/-- Number of participant rows for a session and role, the quantity the
capacity displays compare against the slot count (bot.js line 679). -/
def countParticipants (db : DbState) (sid : Nat) (role : String) : Nat :=
  (db.participants.filter (fun p => p.sessionId == sid && p.role == role)).length

/-- Saturation in the sense of the status law of spec.md: every role of
the game mode has its participant count equal to its slot count. -/
def allRolesFull (db : DbState) (s : Session) : Prop :=
  ∀ rc ∈ rolesOf s.gameMode, countParticipants db s.id rc.1 = rc.2

/-- One mutating trigger of the bot, as a relation on database states.
The constructors cover every write bot.js performs on the sessions,
session_queue and session_participants tables; the create constructor
carries the fact that the game-mode value originates from the closed
choice list of the create-session command.  Handlers that write only the
users or user_accounts tables are covered by the accountsOnly
constructor, and the per-role select-player menus of manageSession reach
only the catch-all reply branch of handleSelectMenu (bot.js lines
1236-1242), which performs no write at all, covered by
menuFallthrough. -/
inductive Step : DbState → DbState → Prop
  | create (db : DbState) (newId : Nat) (creatorId guildId channelId gameMode : String)
      (hmode : gameMode ∈ (["5v5", "6v6", "Stadium"] : List String)) :
      Step db (createSession db newId creatorId guildId channelId gameMode)
  | setMessage (db : DbState) (sid : Nat) (mid : String) :
      Step db (setMessageId db sid mid)
  | join (db : DbState) (sid : Nat) (uid : String) (aid : Nat)
      (roles : List String) (now : Nat) :
      Step db (joinWithAccount db sid uid aid roles now).1
  | leave (db : DbState) (sid : Nat) (uid : String) :
      Step db (handleLeaveQueue db sid uid).1
  | leaveButton (db : DbState) (sid : Nat) (uid : String) :
      Step db (handleLeaveQueueButton db sid uid).1
  | cancel (db : DbState) (sid : Nat) (uid : String) :
      Step db (handleCancelSession db sid uid).1
  | toggleStream (db : DbState) (sid : Nat) (target requester : String) :
      Step db (handleToggleStream db sid target requester).1
  | accountsOnly (db : DbState) (accounts2 : List Account) :
      Step db { db with accounts := accounts2 }
  | menuFallthrough (db : DbState) :
      Step db db

/-- The empty database the schema starts from. -/
def initDb : DbState :=
  { sessions := [], accounts := [], queue := [], participants := [] }

/-- Database states reachable from the empty database by the triggers of
Step. -/
def Reachable (db : DbState) : Prop :=
  Relation.ReflTransGen Step initDb db

lemma mem_jsSetOfList (l : List String) (x : String) :
    x ∈ jsSetOfList l ↔ x ∈ l := by
  induction l using jsSetOfList.induct with
  | case1 => simp [jsSetOfList]
  | case2 a as ih =>
    simp only [jsSetOfList, List.mem_cons, ih, List.mem_filter]
    by_cases hx : x = a
    · simp [hx]
    · simp [hx]

lemma map_if_of_no_match {α} (p : α → Bool) (f : α → α) (l : List α)
    (h : ∀ x ∈ l, p x = false) :
    l.map (fun x => if p x then f x else x) = l := by
  induction l with
  | nil => rfl
  | cons a as ih =>
    have ha := h a (List.mem_cons_self a as)
    have has := ih (fun x hx => h x (List.mem_cons_of_mem a hx))
    simp [ha, has]

lemma filter_length_map_invariant {α} (p : α → Bool) (f : α → α)
    (hf : ∀ x, p (f x) = p x) (l : List α) :
    ((l.map f).filter p).length = (l.filter p).length := by
  induction l with
  | nil => rfl
  | cons a as ih =>
    simp only [List.map_cons, List.filter_cons, hf a]
    by_cases hp : p a = true
    · simp [hp, ih]
    · simp [hp, ih]

lemma step_participants_length {db db2 : DbState} (h : Step db db2) :
    db2.participants.length = db.participants.length := by
  cases h with
  | create newId c g ch gm hmode => rfl
  | setMessage sid mid => rfl
  | join sid uid aid roles now =>
    simp only [joinWithAccount]
    split <;> rfl
  | leave sid uid =>
    simp only [handleLeaveQueue]
    split <;> rfl
  | leaveButton sid uid => rfl
  | cancel sid uid =>
    simp only [handleCancelSession]
    split <;> rfl
  | toggleStream sid target requester =>
    simp only [handleToggleStream]
    split
    · rfl
    · split
      · rfl
      · split
        · simp [List.length_map]
        · rfl
  | accountsOnly a2 => rfl
  | menuFallthrough => rfl

lemma reachable_participants_nil (db : DbState) (h : Reachable db) :
    db.participants = [] := by
  induction h with
  | refl => rfl
  | tail hsteps hstep ih =>
    have := step_participants_length hstep
    rw [ih] at this
    exact List.length_eq_zero.mp (by simpa using this)

/-- Status values and game modes a reachable row can hold: status is the
schema default open or the cancelled written by handleCancelSession, and
the game mode comes from the closed choice list. -/
def SessionsWellFormed (db : DbState) : Prop :=
  ∀ s ∈ db.sessions,
    (s.status = "open" ∨ s.status = "cancelled") ∧
    s.gameMode ∈ (["5v5", "6v6", "Stadium"] : List String)

lemma step_sessions_wf {db db2 : DbState} (h : Step db db2)
    (ih : SessionsWellFormed db) : SessionsWellFormed db2 := by
  cases h with
  | create newId c g ch gm hmode =>
    intro s hs
    simp only [createSession, List.mem_append, List.mem_singleton] at hs
    rcases hs with hs | hs
    · exact ih s hs
    · subst hs
      exact ⟨Or.inl rfl, hmode⟩
  | setMessage sid mid =>
    intro s hs
    simp only [setMessageId, List.mem_map] at hs
    obtain ⟨x, hx, hxs⟩ := hs
    by_cases hc : (x.id == sid) = true
    · rw [if_pos hc] at hxs
      subst hxs
      exact ih x hx
    · rw [if_neg hc] at hxs
      subst hxs
      exact ih x hx
  | join sid uid aid roles now =>
    intro s hs
    apply ih
    revert hs
    simp only [joinWithAccount]
    split <;> exact fun hs => hs
  | leave sid uid =>
    intro s hs
    apply ih
    revert hs
    simp only [handleLeaveQueue]
    split <;> exact fun hs => hs
  | leaveButton sid uid =>
    intro s hs
    exact ih s hs
  | cancel sid uid =>
    intro s hs
    revert hs
    simp only [handleCancelSession]
    split <;>
    · intro hs
      simp only [List.mem_map] at hs
      obtain ⟨x, hx, hxs⟩ := hs
      by_cases hc : (x.id == sid && x.creatorId == uid) = true
      · rw [if_pos hc] at hxs
        subst hxs
        exact ⟨Or.inr rfl, (ih x hx).2⟩
      · rw [if_neg hc] at hxs
        subst hxs
        exact ih x hx
  | toggleStream sid target requester =>
    intro s hs
    apply ih
    revert hs
    simp only [handleToggleStream]
    split
    · exact fun hs => hs
    · split
      · exact fun hs => hs
      · split <;> exact fun hs => hs
  | accountsOnly a2 =>
    intro s hs
    exact ih s hs
  | menuFallthrough =>
    exact ih

lemma reachable_sessions_wf (db : DbState) (h : Reachable db) :
    SessionsWellFormed db := by
  induction h with
  | refl => intro s hs; simp [initDb] at hs
  | tail hsteps hstep ih => exact step_sessions_wf hstep ih

/-- C1: in every reachable database state, for every stored session and
every role of its game mode, the number of participant rows for that
session and role is at most the slot count of the game mode.  Every
trigger of Step preserves the bound — in particular the accept-player
flow reached through the per-role selection menus, whose custom ids fall
through to the reply-only branch of handleSelectMenu and insert
nothing. -/
theorem participant_counts_bounded (db : DbState) (h : Reachable db) :
    ∀ s ∈ db.sessions, ∀ rc ∈ rolesOf s.gameMode,
      countParticipants db s.id rc.1 ≤ rc.2 := by
  have hp := reachable_participants_nil db h
  intro s _ rc _
  simp [countParticipants, hp]

/-- Witness database: one 5v5 session reached by a single create step. -/
def dbOneSession : DbState :=
  createSession initDb 1 "creator" "guild" "chan" "5v5"

theorem participant_counts_bounded_witness :
    Reachable dbOneSession ∧
    ∀ s ∈ dbOneSession.sessions, ∀ rc ∈ rolesOf s.gameMode,
      countParticipants dbOneSession s.id rc.1 ≤ rc.2 := by
  have hr : Reachable dbOneSession :=
    Relation.ReflTransGen.single
      (Step.create initDb 1 "creator" "guild" "chan" "5v5" (by decide))
  exact ⟨hr, participant_counts_bounded dbOneSession hr⟩

/-- C3: in every reachable database state, every stored session whose
status is not cancelled satisfies the status law — its status is full
exactly when every role count of its game mode equals the slot count,
and open otherwise.  Both sides of the biconditional are false on every
reachable state: the deployed accept flow never inserts a participant row
and no code path writes the status full. -/
theorem status_law (db : DbState) (h : Reachable db) :
    ∀ s ∈ db.sessions, s.status ≠ "cancelled" →
      ((s.status = "full" ↔ allRolesFull db s) ∧
       (¬ allRolesFull db s → s.status = "open")) := by
  intro s hs hnc
  have hp := reachable_participants_nil db h
  have hwf := reachable_sessions_wf db h s hs
  have hopen : s.status = "open" := by
    rcases hwf.1 with h1 | h1
    · exact h1
    · exact absurd h1 hnc
  have hcount : ∀ role, countParticipants db s.id role = 0 := by
    intro role
    simp [countParticipants, hp]
  have hnotfull : ¬ allRolesFull db s := by
    intro hf
    have hm := hwf.2
    simp only [List.mem_cons, List.not_mem_nil, or_false] at hm
    rcases hm with hm | hm | hm
    · have h1 := hf ("Tank", 1) (by rw [hm]; decide)
      rw [hcount "Tank"] at h1
      exact absurd h1 (by decide)
    · have h1 := hf ("Any", 6) (by rw [hm]; decide)
      rw [hcount "Any"] at h1
      exact absurd h1 (by decide)
    · have h1 := hf ("Any", 6) (by rw [hm]; decide)
      rw [hcount "Any"] at h1
      exact absurd h1 (by decide)
  refine ⟨⟨fun hfull => ?_, fun hf => absurd hf hnotfull⟩, fun _ => hopen⟩
  exact absurd (hopen.symm.trans hfull) (by decide)

theorem status_law_witness :
    Reachable dbOneSession ∧
    ∀ s ∈ dbOneSession.sessions, s.status ≠ "cancelled" →
      ((s.status = "full" ↔ allRolesFull dbOneSession s) ∧
       (¬ allRolesFull dbOneSession s → s.status = "open")) := by
  have hr : Reachable dbOneSession :=
    Relation.ReflTransGen.single
      (Step.create initDb 1 "creator" "guild" "chan" "5v5" (by decide))
  exact ⟨hr, status_law dbOneSession hr⟩

/-- C8: for every tier listed in the rank table and every division listed
for it, getRankValue returns tierIndex * 10 + (6 - division), is strictly
larger for strictly lower (stronger) division numbers within one tier,
and is strictly increasing across tiers whatever the two divisions
are. -/
theorem getRankValue_spec :
    (∀ p ∈ ranksDivisions, ∀ d ∈ p.2,
        getRankValue p.1 d = (rankOrder.indexOf p.1 : Int) * 10 + (6 - d)) ∧
    (∀ p ∈ ranksDivisions, ∀ d1 ∈ p.2, ∀ d2 ∈ p.2,
        d1 < d2 → getRankValue p.1 d2 < getRankValue p.1 d1) ∧
    (∀ p ∈ ranksDivisions, ∀ q ∈ ranksDivisions,
        rankOrder.indexOf p.1 < rankOrder.indexOf q.1 →
        ∀ d1 ∈ p.2, ∀ d2 ∈ q.2, getRankValue p.1 d1 < getRankValue q.1 d2) := by
  decide

theorem getRankValue_spec_witness : getRankValue "Gold" 3 = 23 := by
  have h := getRankValue_spec.1 ("Gold", [5, 4, 3, 2, 1]) (by decide) 3 (by decide)
  rw [h]
  decide

/-- C9: updateSessionMessage returns the database unchanged and an ok
result for every session id and every outcome of the external message
edit; a missing session, an unbound message and a failing edit are all
absorbed, so a display failure never surfaces as a failure of the
triggering operation and never rolls its mutation back. -/
theorem updateSessionMessage_never_propagates (db : DbState) (sid : Nat)
    (editResult : Except String Unit) :
    updateSessionMessage db sid editResult = (db, Except.ok ()) := by
  unfold updateSessionMessage
  cases h : db.sessions.find? (fun s => s.id == sid) with
  | none => rfl
  | some s =>
    by_cases hm : s.messageId = ""
    · simp [hm]
    · cases editResult <;> simp [hm]

/-- C10: a toggle-streaming request whose target user differs from the
requesting user is refused with the own-status-only error and leaves the
whole database — queue and participant streaming flags included —
unchanged. -/
theorem toggleStream_foreign_target_refused (db : DbState) (sid : Nat)
    (target requester : String) (h : target ≠ requester) :
    handleToggleStream db sid target requester
      = (db, "You can only toggle your own streaming status!") := by
  simp [handleToggleStream, h]

theorem toggleStream_foreign_target_refused_witness :
    ("alice" : String) ≠ "bob" ∧
    handleToggleStream initDb 1 "alice" "bob"
      = (initDb, "You can only toggle your own streaming status!") :=
  ⟨by decide, toggleStream_foreign_target_refused initDb 1 "alice" "bob" (by decide)⟩

lemma joinWithAccount_insert (db : DbState) (sid : Nat) (uid : String)
    (aid : Nat) (roles : List String) (now : Nat)
    (h : db.queue.find? (fun q => q.sessionId == sid && q.userId == uid) = none) :
    joinWithAccount db sid uid aid roles now
      = ({ db with queue := db.queue ++
            [{ sessionId := sid, userId := uid, accountId := aid,
               preferredRoles := roles, isStreaming := false, joinedAt := now }] },
         "Successfully joined queue") := by
  unfold joinWithAccount
  rw [h]

/-- Database with a single cancelled session and an empty queue. -/
def dbCancelled : DbState :=
  { sessions := [{ id := 1, creatorId := "creator", guildId := "g",
                   channelId := "c", gameMode := "5v5",
                   status := "cancelled", messageId := "" }],
    accounts := [], queue := [], participants := [] }

/-- C2 counterexample: the only session is CANCELLED, yet joinWithAccount
admits the user — it inserts a queue entry and reports success instead of
failing with a SessionClosed error (no such check exists in the code). -/
theorem join_cancelled_session_counterexample :
    (∀ s ∈ dbCancelled.sessions, s.status = "cancelled") ∧
    (joinWithAccount dbCancelled 1 "u1" 7 ["Tank"] 0).1.queue.length = 1 ∧
    (joinWithAccount dbCancelled 1 "u1" 7 ["Tank"] 0).2
      = "Successfully joined queue" := by
  decide

/-- C2 amended: joinWithAccount performs no session-status check at all;
for a user with no live queue entry the join succeeds and appends exactly
one new queue entry whatever the status of the session — OPEN, FULL or
CANCELLED — may be. -/
theorem joinWithAccount_ignores_status (db : DbState) (sid : Nat) (uid : String)
    (aid : Nat) (roles : List String) (now : Nat)
    (h : db.queue.find? (fun q => q.sessionId == sid && q.userId == uid) = none) :
    joinWithAccount db sid uid aid roles now
      = ({ db with queue := db.queue ++
            [{ sessionId := sid, userId := uid, accountId := aid,
               preferredRoles := roles, isStreaming := false, joinedAt := now }] },
         "Successfully joined queue") :=
  joinWithAccount_insert db sid uid aid roles now h

theorem joinWithAccount_ignores_status_witness :
    dbCancelled.queue.find? (fun q => q.sessionId == 1 && q.userId == "u1") = none ∧
    joinWithAccount dbCancelled 1 "u1" 7 ["Tank"] 0
      = ({ dbCancelled with queue := dbCancelled.queue ++
            [{ sessionId := 1, userId := "u1", accountId := 7,
               preferredRoles := ["Tank"], isStreaming := false, joinedAt := 0 }] },
         "Successfully joined queue") :=
  ⟨rfl, joinWithAccount_ignores_status dbCancelled 1 "u1" 7 ["Tank"] 0 rfl⟩

/-- Database whose queue holds one entry of another user. -/
def dbOtherQueued : DbState :=
  { sessions := [], accounts := [],
    queue := [{ sessionId := 1, userId := "someone", accountId := 3,
                preferredRoles := ["DPS"], isStreaming := false, joinedAt := 4 }],
    participants := [] }

/-- C5 counterexample: the leave-queue button path with no live entry for
the user replies with a success message, never the not-in-queue error,
although its deletion matched nothing and every record is unchanged. -/
theorem leaveQueueButton_no_entry_counterexample :
    (∀ q ∈ dbOtherQueued.queue, (q.sessionId == 1 && q.userId == "u9") = false) ∧
    handleLeaveQueueButton dbOtherQueued 1 "u9"
      = (dbOtherQueued, "Left the queue for session!") ∧
    ("Left the queue for session!" : String)
      ≠ "You were not in the queue for this session!" := by
  decide

/-- C5 amended: when the user has no live queue entry for the session,
leaving the queue changes no record — queue, participant and session rows
alike — on either path; the slash-command handler handleLeaveQueue
replies with the not-in-queue error, while the button handler
handleLeaveQueueButton replies with a success message despite deleting
nothing. -/
theorem leaveQueue_no_entry_noop (db : DbState) (sid : Nat) (uid : String)
    (h : ∀ q ∈ db.queue, (q.sessionId == sid && q.userId == uid) = false) :
    handleLeaveQueue db sid uid
      = (db, "You were not in the queue for this session!") ∧
    handleLeaveQueueButton db sid uid
      = (db, "Left the queue for session!") := by
  have h0 : (db.queue.filter (fun q => q.sessionId == sid && q.userId == uid)).length = 0 := by
    rw [List.length_eq_zero, List.filter_eq_nil_iff]
    intro a ha
    simp [h a ha]
  have hself : db.queue.filter (fun q => !(q.sessionId == sid && q.userId == uid)) = db.queue :=
    List.filter_eq_self.mpr (fun a ha => by rw [h a ha]; rfl)
  constructor
  · simp only [handleLeaveQueue, hself, h0, if_true]
  · simp only [handleLeaveQueueButton, hself]

theorem leaveQueue_no_entry_noop_witness :
    (∀ q ∈ dbOtherQueued.queue, (q.sessionId == 1 && q.userId == "u9") = false) ∧
    (handleLeaveQueue dbOtherQueued 1 "u9"
      = (dbOtherQueued, "You were not in the queue for this session!") ∧
     handleLeaveQueueButton dbOtherQueued 1 "u9"
      = (dbOtherQueued, "Left the queue for session!")) :=
  ⟨by decide, leaveQueue_no_entry_noop dbOtherQueued 1 "u9" (by decide)⟩

lemma cancelSession_sessions_eq (db : DbState) (sid : Nat) (uid : String) :
    (handleCancelSession db sid uid).1.sessions
      = db.sessions.map (fun s =>
          if s.id == sid && s.creatorId == uid then
            { s with status := "cancelled" }
          else s) := by
  simp only [handleCancelSession]
  split <;> rfl

lemma cancel_map_marks_matching (l : List Session) (sid : Nat) (uid : String) :
    ∀ s ∈ l.map (fun s =>
        if s.id == sid && s.creatorId == uid then
          { s with status := "cancelled" }
        else s),
      s.id = sid → s.creatorId = uid → s.status = "cancelled" := by
  intro s hs hid hcr
  simp only [List.mem_map] at hs
  obtain ⟨x, hx, hxs⟩ := hs
  by_cases hc : (x.id == sid && x.creatorId == uid) = true
  · rw [if_pos hc] at hxs
    subst hxs
    rfl
  · rw [if_neg hc] at hxs
    subst hxs
    exact absurd (by simp [hid, hcr]) hc

lemma cancelSession_snd_of_match (db : DbState) (sid : Nat) (uid : String)
    (h : (db.sessions.filter (fun s => s.id == sid && s.creatorId == uid)).length ≠ 0) :
    (handleCancelSession db sid uid).2 = "Session has been cancelled." := by
  simp only [handleCancelSession]
  rw [if_neg h]

lemma cancelSession_preserves_match_count (db : DbState) (sid : Nat) (uid : String) :
    ((handleCancelSession db sid uid).1.sessions.filter
        (fun s => s.id == sid && s.creatorId == uid)).length
      = (db.sessions.filter (fun s => s.id == sid && s.creatorId == uid)).length := by
  rw [cancelSession_sessions_eq]
  apply filter_length_map_invariant
  intro x
  by_cases hc : (x.id == sid && x.creatorId == uid) = true
  · rw [if_pos hc]
  · rw [if_neg hc]

/-- C6: handleCancelSession run by the creator of an existing session
replies with the cancelled message and sets the status of every row with
that id and creator to cancelled; run when no row matches the id and
caller (in particular by any non-creator) it replies with the error and
changes nothing; and run a second time after a successful cancellation it
succeeds again as a no-op, the status staying cancelled. -/
theorem cancelSession_spec (db : DbState) (sid : Nat) (uid : String) :
    ((db.sessions.filter (fun s => s.id == sid && s.creatorId == uid)).length = 0 →
      handleCancelSession db sid uid
        = (db, "Session not found or you are not the creator!")) ∧
    ((db.sessions.filter (fun s => s.id == sid && s.creatorId == uid)).length ≠ 0 →
      (handleCancelSession db sid uid).2 = "Session has been cancelled." ∧
      (∀ s ∈ (handleCancelSession db sid uid).1.sessions,
        s.id = sid → s.creatorId = uid → s.status = "cancelled") ∧
      (handleCancelSession (handleCancelSession db sid uid).1 sid uid).2
        = "Session has been cancelled." ∧
      ∀ s ∈ (handleCancelSession (handleCancelSession db sid uid).1 sid uid).1.sessions,
        s.id = sid → s.creatorId = uid → s.status = "cancelled") := by
  constructor
  · intro h0
    have hall : ∀ s ∈ db.sessions, (s.id == sid && s.creatorId == uid) = false := by
      intro s hs
      have := List.filter_eq_nil_iff.mp (List.length_eq_zero.mp h0) s hs
      simpa using this
    have hmap := map_if_of_no_match (fun s => s.id == sid && s.creatorId == uid)
      (fun s => { s with status := "cancelled" }) db.sessions hall
    simp only [handleCancelSession]
    rw [if_pos h0, hmap]
  · intro hne
    refine ⟨cancelSession_snd_of_match db sid uid hne, ?_, ?_, ?_⟩
    · rw [cancelSession_sessions_eq]
      exact cancel_map_marks_matching db.sessions sid uid
    · apply cancelSession_snd_of_match
      rw [cancelSession_preserves_match_count]
      exact hne
    · rw [cancelSession_sessions_eq]
      exact cancel_map_marks_matching _ sid uid

/-- Database with one open session created by the user creator. -/
def dbOpenSession : DbState :=
  { sessions := [{ id := 1, creatorId := "creator", guildId := "g",
                   channelId := "c", gameMode := "5v5",
                   status := "open", messageId := "" }],
    accounts := [], queue := [], participants := [] }

theorem cancelSession_spec_witness :
    ((dbOpenSession.sessions.filter
        (fun s => s.id == 1 && s.creatorId == "creator")).length ≠ 0 ∧
      (handleCancelSession dbOpenSession 1 "creator").2 = "Session has been cancelled." ∧
      (∀ s ∈ (handleCancelSession dbOpenSession 1 "creator").1.sessions,
        s.id = 1 → s.creatorId = "creator" → s.status = "cancelled") ∧
      (handleCancelSession (handleCancelSession dbOpenSession 1 "creator").1 1 "creator").2
        = "Session has been cancelled." ∧
      ∀ s ∈ (handleCancelSession (handleCancelSession dbOpenSession 1 "creator").1 1 "creator").1.sessions,
        s.id = 1 → s.creatorId = "creator" → s.status = "cancelled") ∧
    ((dbOpenSession.sessions.filter
        (fun s => s.id == 1 && s.creatorId == "intruder")).length = 0 ∧
      handleCancelSession dbOpenSession 1 "intruder"
        = (dbOpenSession, "Session not found or you are not the creator!")) :=
  ⟨⟨by decide, (cancelSession_spec dbOpenSession 1 "creator").2 (by decide)⟩,
   ⟨by decide, (cancelSession_spec dbOpenSession 1 "intruder").1 (by decide)⟩⟩

/-- C4: joining the queue with role set A and then joining again with
role set B yields exactly one live queue entry for the (session, user)
pair, and its preferred-role set is the union of A and B; the second join
merges (bot.js lines 977-1009) instead of creating a second entry. -/
theorem joinQueue_merge_law (db : DbState) (sid : Nat) (uid : String)
    (a1 a2 : Nat) (A B : List String) (t1 t2 : Nat)
    (h : db.queue.find? (fun q => q.sessionId == sid && q.userId == uid) = none) :
    (((joinWithAccount (joinWithAccount db sid uid a1 A t1).1 sid uid a2 B t2).1.queue.filter
        (fun q => q.sessionId == sid && q.userId == uid)).length = 1) ∧
    (∀ q ∈ (joinWithAccount (joinWithAccount db sid uid a1 A t1).1 sid uid a2 B t2).1.queue,
      q.sessionId = sid → q.userId = uid →
      ∀ r, (r ∈ q.preferredRoles ↔ r ∈ A ∨ r ∈ B)) := by
  have hall : ∀ q ∈ db.queue, (q.sessionId == sid && q.userId == uid) = false := by
    intro q hq
    have := List.find?_eq_none.mp h q hq
    simpa using this
  have h1 := joinWithAccount_insert db sid uid a1 A t1 h
  rw [h1]
  set e0 : QueueEntry :=
    { sessionId := sid, userId := uid, accountId := a1,
      preferredRoles := A, isStreaming := false, joinedAt := t1 } with he0
  have hpe0 : (e0.sessionId == sid && e0.userId == uid) = true := by simp [he0]
  have hfind2 : (db.queue ++ [e0]).find?
      (fun q => q.sessionId == sid && q.userId == uid) = some e0 := by
    rw [List.find?_append, List.find?_eq_none.mpr (by intro x hx; simp [hall x hx])]
    simp [List.find?, hpe0]
  set e1 : QueueEntry :=
    { e0 with preferredRoles := jsSetOfList (e0.preferredRoles ++ B), accountId := a2 } with he1
  have hq2 : (joinWithAccount ({ db with queue := db.queue ++ [e0] }) sid uid a2 B t2).1.queue
      = db.queue ++ [e1] := by
    unfold joinWithAccount
    rw [hfind2]
    simp only [List.map_append]
    rw [map_if_of_no_match _ _ db.queue hall]
    simp [List.map_cons, hpe0, he1]
  rw [hq2]
  constructor
  · rw [List.filter_append, List.filter_eq_nil_iff.mpr (by intro a ha; simp [hall a ha])]
    have hpe1 : (e1.sessionId == sid && e1.userId == uid) = true := by simp [he1, he0]
    simp [List.filter, hpe1]
  · intro q hq hid huid r
    rcases List.mem_append.mp hq with hq | hq
    · have hb : (q.sessionId == sid && q.userId == uid) = true := by
        simp [hid, huid]
      rw [hall q hq] at hb
      exact (Bool.false_ne_true hb).elim
    · have hqe : q = e1 := by simpa using hq
      subst hqe
      rw [he1]
      simp only [he0]
      rw [mem_jsSetOfList]
      simp

theorem joinQueue_merge_law_witness :
    (initDb.queue.find? (fun q => q.sessionId == 1 && q.userId == "u1") = none) ∧
    (((joinWithAccount (joinWithAccount initDb 1 "u1" 2 ["Tank"] 0).1 1 "u1" 3 ["DPS"] 1).1.queue.filter
        (fun q => q.sessionId == 1 && q.userId == "u1")).length = 1) ∧
    (∀ q ∈ (joinWithAccount (joinWithAccount initDb 1 "u1" 2 ["Tank"] 0).1 1 "u1" 3 ["DPS"] 1).1.queue,
      q.sessionId = 1 → q.userId = "u1" →
      ∀ r, (r ∈ q.preferredRoles ↔ r ∈ ["Tank"] ∨ r ∈ ["DPS"])) :=
  ⟨rfl,
   (joinQueue_merge_law initDb 1 "u1" 2 3 ["Tank"] ["DPS"] 0 1 rfl).1,
   (joinQueue_merge_law initDb 1 "u1" 2 3 ["Tank"] ["DPS"] 0 1 rfl).2⟩

/-- Account holding a Bronze 5 tank rank. -/
def accBronze : Account :=
  { id := 1, discordId := "u1", tankRank := "Bronze", tankDivision := 5,
    dpsRank := "", dpsDivision := 0, supportRank := "", supportDivision := 0 }

/-- Account holding a Gold 1 tank rank. -/
def accGold : Account :=
  { id := 2, discordId := "u2", tankRank := "Gold", tankDivision := 1,
    dpsRank := "", dpsDivision := 0, supportRank := "", supportDivision := 0 }

/-- Queue entry of the Bronze account, stored first. -/
def qeBronze : QueueEntry :=
  { sessionId := 1, userId := "u1", accountId := 1,
    preferredRoles := ["Tank"], isStreaming := false, joinedAt := 5 }

/-- Queue entry of the Gold account, same join timestamp, stored second. -/
def qeGold : QueueEntry :=
  { sessionId := 1, userId := "u2", accountId := 2,
    preferredRoles := ["Tank"], isStreaming := false, joinedAt := 5 }

/-- Database with the two tied queue entries and their accounts. -/
def dbRanked : DbState :=
  { sessions := [], accounts := [accBronze, accGold],
    queue := [qeBronze, qeGold], participants := [] }

/-- Users table holding a discord_id row for both queued users. -/
def usersRanked : List String := ["u1", "u2"]

/-- C7 counterexample: two eligible entries share a join timestamp and the
lower-ranked one is stored first; the code keeps it first, so the shown
list is not tie-broken by rank value descending and differs from the
spec-modelled ordering. -/
theorem listEligible_tie_counterexample :
    qeBronze.joinedAt = qeGold.joinedAt ∧
    rankForRole dbRanked qeBronze "Tank" < rankForRole dbRanked qeGold "Tank" ∧
    listEligible usersRanked dbRanked.queue 1 "Tank" = [qeBronze, qeGold] ∧
    listEligibleSpec dbRanked dbRanked.queue "Tank" = [qeGold, qeBronze] ∧
    listEligible usersRanked dbRanked.queue 1 "Tank"
      ≠ listEligibleSpec dbRanked dbRanked.queue "Tank" := by
  decide

lemma mem_eligibleAll (users : List String) (queue : List QueueEntry)
    (sid : Nat) (role : String) (e : QueueEntry) :
    e ∈ eligibleAll users queue sid role ↔
      e ∈ queue ∧ e.sessionId = sid ∧ users.contains e.userId = true ∧
        eligibleFor role e = true := by
  unfold eligibleAll queueByJoinTime
  rw [List.mem_filter, (List.perm_insertionSort joinLE _).mem_iff, List.mem_filter]
  simp only [Bool.and_eq_true, beq_iff_eq]
  tauto

/-- C7 amended: every entry the creator is shown for a role is a queue
row of the session whose user has a users record and which satisfies the
role condition (preferred roles contain the role, contain the catch-all
Any, or the role itself is Any); whenever at most 25 rows qualify, the
shown list contains exactly those rows; and the list is ordered by join
timestamp ascending with equal timestamps left in stored order — no
rank-based tie-break is applied, and rows beyond the display cap of 25 or
whose user lacks a users record are not shown. -/
theorem listEligible_membership_and_order (users : List String)
    (queue : List QueueEntry) (sid : Nat) (role : String) :
    (∀ e ∈ listEligible users queue sid role,
        e ∈ queue ∧ e.sessionId = sid ∧ users.contains e.userId = true ∧
          eligibleFor role e = true) ∧
    ((eligibleAll users queue sid role).length ≤ 25 →
      ∀ e, (e ∈ listEligible users queue sid role ↔
        e ∈ queue ∧ e.sessionId = sid ∧ users.contains e.userId = true ∧
          eligibleFor role e = true)) ∧
    (listEligible users queue sid role).Pairwise joinLE := by
  refine ⟨?_, ?_, ?_⟩
  · intro e he
    exact (mem_eligibleAll users queue sid role e).mp
      ((List.take_sublist 25 (eligibleAll users queue sid role)).mem he)
  · intro hle e
    unfold listEligible
    rw [List.take_of_length_le hle]
    exact mem_eligibleAll users queue sid role e
  · have hall : (eligibleAll users queue sid role).Pairwise joinLE :=
      List.Pairwise.filter _ (List.sorted_insertionSort joinLE _)
    exact List.Pairwise.sublist
      (List.take_sublist 25 (eligibleAll users queue sid role)) hall

theorem listEligible_membership_and_order_witness :
    (eligibleAll usersRanked dbRanked.queue 1 "Tank").length ≤ 25 ∧
    (qeBronze ∈ listEligible usersRanked dbRanked.queue 1 "Tank" ↔
      qeBronze ∈ dbRanked.queue ∧ qeBronze.sessionId = 1 ∧
        usersRanked.contains qeBronze.userId = true ∧
        eligibleFor "Tank" qeBronze = true) :=
  ⟨by decide,
   (listEligible_membership_and_order usersRanked dbRanked.queue 1 "Tank").2.1
     (by decide) qeBronze⟩
